import Mathlib

/-!
Shallow embedding of the MusicLibrary HTTP service (Go + gin + GORM/PostgreSQL).

The persistent store is modelled as a `List Song` in storage order (primary-key
insertion order).  Each request handler from `controllers/song_controller.go`
becomes a pure Lean function from the store and the parsed request parameters to
an explicit result value (and, for mutating handlers, the successor store).
External collaborators are modelled as parameters: the enrichment lookup
(`utils.FetchSongDetails`) as an `Option SongDetail` (`none` = any failure:
network error, non-200 status, decode error), and the current day
(`time.Now().Truncate(24 * time.Hour)`) as a `Date` value.
-/

namespace MusicLib

/-- Persistent `Song` entity, from `models/song.go` (`models.Song`).  All machine
integers in the program stay far from overflow, so `id` is a `Nat`. -/
structure Song where
  id : Nat
  group : String
  song : String
  releaseDate : String
  text : String
  link : String
  deriving Repr, DecidableEq

/-- Creation request body, from `models/song.go` (`models.SongInput`): both
fields carry gin's `binding:"required"`, which rejects absent or empty strings. -/
structure SongInput where
  group : String
  song : String
  deriving Repr, DecidableEq

/-- Enrichment result, from `utils/external_api.go` (`utils.SongDetail`). -/
structure SongDetail where
  releaseDate : String
  text : String
  link : String
  deriving Repr, DecidableEq

/-- Calendar date.  `time.Parse("02.01.2006", s)` with no zone yields the UTC
midnight of this calendar date, and `time.Now().Truncate(24 * time.Hour)` is the
UTC midnight of the current UTC day, so instants compared by the controller are
exactly UTC midnights of calendar dates. -/
structure Date where
  day : Nat
  month : Nat
  year : Nat
  deriving Repr, DecidableEq

/-- Numeric value of a decimal digit character. -/
def digitVal (c : Char) : Nat := c.toNat - 48

/-- Gregorian leap-year rule, as in Go's `time.isLeap`. -/
def isLeapYear (y : Nat) : Bool :=
  y % 4 == 0 && (y % 100 != 0 || y % 400 == 0)

/-- Number of days in a month, as in Go's `time.daysIn`. -/
def daysIn (month year : Nat) : Nat :=
  if month == 2 then (if isLeapYear year then 29 else 28)
  else if month == 4 || month == 6 || month == 9 || month == 11 then 30
  else 31

/-- Model of Go's `time.Parse("02.01.2006", s)` restricted to its success/failure
behaviour and the parsed calendar date.  The layout demands exactly two digits
for the day, a literal dot, exactly two digits for the month, a literal dot and
exactly four digits for the year, with no leftover input; after parsing, Go
checks `1 ≤ month ≤ 12` and `1 ≤ day ≤ daysIn month year` ("month/day out of
range").  Any violation makes `time.Parse` return an error, modelled as `none`. -/
def parseDDMMYYYY (s : String) : Option Date :=
  match s.toList with
  | [d1, d2, dot1, m1, m2, dot2, y1, y2, y3, y4] =>
    if d1.isDigit && d2.isDigit && dot1 == '.' && m1.isDigit && m2.isDigit && dot2 == '.' &&
        y1.isDigit && y2.isDigit && y3.isDigit && y4.isDigit then
      let day := 10 * digitVal d1 + digitVal d2
      let month := 10 * digitVal m1 + digitVal m2
      let year := 1000 * digitVal y1 + 100 * digitVal y2 + 10 * digitVal y3 + digitVal y4
      if 1 ≤ month ∧ month ≤ 12 ∧ 1 ≤ day ∧ day ≤ daysIn month year then
        some ⟨day, month, year⟩
      else none
    else none
  | _ => none

/-- Strict calendar-date comparison: `parsedDate.After(today)` on the UTC
midnights of two calendar dates is exactly the lexicographic comparison of
(year, month, day). -/
def dateAfter (a b : Date) : Bool :=
  a.year > b.year ||
    (a.year == b.year && (a.month > b.month || (a.month == b.month && a.day > b.day)))

/-- Outcome of the release-date validation inlined at the two optional-date call
sites (`GetAllSongs` lines 698-712 and `UpdateSong` lines 941-956): the two
failure kinds carry distinct 400 messages in the handlers. -/
inductive DateCheck
  | valid
  | invalidFormat
  | futureDate
  deriving Repr, DecidableEq

/-- The Date Validator, verbatim from both call sites: skip when the optional
string is empty; otherwise `time.Parse("02.01.2006", s)` (failure ⇒ invalid
format) and then `parsedDate.After(time.Now().Truncate(24 * time.Hour))`
(strictly future ⇒ rejected). -/
def validateReleaseDate (today : Date) (s : String) : DateCheck :=
  if s = "" then .valid
  else
    match parseDDMMYYYY s with
    | none => .invalidFormat
    | some d => if dateAfter d today then .futureDate else .valid

/-- Split a character sequence on each leftmost non-overlapping occurrence of
the two-character separator `"\n\n"`, the semantics of Go's
`strings.Split(text, "\n\n")` (`GetSongVerses` line 796).  The scan is left to
right: whenever the next two characters are both newlines they are consumed as
one delimiter.  An empty input yields the single-element list `[[]]`, exactly as
`strings.Split("", "\n\n")` yields `[""]`. -/
def splitVerses : List Char → List (List Char)
  | [] => [[]]
  | '\n' :: '\n' :: rest => [] :: splitVerses rest
  | c :: rest =>
    match splitVerses rest with
    | [] => [[c]]
    | v :: vs => (c :: v) :: vs

/-- String-level wrapper for `splitVerses`: the ordered verse list of a lyric
text. -/
def splitText (s : String) : List String :=
  (splitVerses s.toList).map String.mk

/-- Primary-key lookup, modelling `database.DB.First(&song, id)`: the stored
record whose `id` column equals the given id, if any. -/
def findSong (store : List Song) (i : Nat) : Option Song :=
  store.find? (fun s => s.id == i)

/-- Two's-complement wrap of Go's 64-bit `int`: arithmetic on `int` reduces
modulo 2^64 into the range [-2^63, 2^63).  The literals are 2^63 and 2^64.
`strconv.Atoi` only produces values already in this range, but products and
sums computed by the handlers (`start`, `end`, `offset`) wrap through this
function exactly as the program's `int` arithmetic does. -/
def wrap64 (x : Int) : Int :=
  (x + 9223372036854775808) % 18446744073709551616 - 9223372036854775808

/-- Response body of the verses endpoint, from `models.ResponseSongVerses`.
`page` and `limit` are the parsed Go `int` values. -/
structure ResponseSongVerses where
  song : String
  group : String
  releaseDate : String
  verses : List String
  page : Int
  limit : Int
  total : Nat
  deriving Repr, DecidableEq

/-- Outcome of the GET verses handler: 404, 400 with a message, 200 with a
response body, or the bare 500 produced by gin's Recovery middleware
(`gin.Default()`) when the slice expression `verses[start:end]` panics on a
negative or inverted bound after int64 wrap-around. -/
inductive VersesResult
  | notFound
  | badRequest (msg : String)
  | ok (resp : ResponseSongVerses)
  | panicked
  deriving Repr, DecidableEq

/-- The GET `/songs/{id}/verses` handler, `GetSongVerses` (lines 764-838):
resolve the song by id (404 if absent), reject non-positive page or limit with
400, split the text into verses, compute `start = (page-1)*limit` and
`end = start+limit` in Go's wrapping 64-bit `int` arithmetic; a start at or
beyond the verse count yields 200 with an empty verse list and the total
count, otherwise `end` is clamped to the verse count and the slice
`verses[start:end]` is returned with the total count — unless the wrapped
bounds are invalid for a Go slice (negative start, or end below start), in
which case the slice expression panics and Recovery answers a bare 500.
`page` and `limit` are the values produced by `strconv.Atoi` (hence within
int64); the handler rejects exactly the values below 1, so parse failures
(rejected earlier with the same 400 responses) are not modelled separately. -/
def getSongVerses (store : List Song) (i : Nat) (page limit : Int) : VersesResult :=
  match findSong store i with
  | none => .notFound
  | some song =>
    if page < 1 then .badRequest "Invalid page parameter"
    else if limit < 1 then .badRequest "Invalid limit parameter"
    else
      let verses := splitText song.text
      let start := wrap64 ((page - 1) * limit)
      let stop := wrap64 (start + limit)
      if start ≥ (verses.length : Int) then
        .ok ⟨song.song, song.group, song.releaseDate, [], page, limit, verses.length⟩
      else
        let stop2 := if stop > (verses.length : Int) then (verses.length : Int) else stop
        if start < 0 ∨ stop2 < start then .panicked
        else
          .ok ⟨song.song, song.group, song.releaseDate,
            (verses.drop start.toNat).take (stop2 - start).toNat, page, limit,
            verses.length⟩

/-- SQL `field ILIKE '%' || pat || '%'` for a pattern free of the LIKE
metacharacters `%`, `_` and `\`: case-insensitive substring containment
(PostgreSQL folds case; `toLower` models the fold on the ASCII filters used
here).  `leadsWith pat l` holds when `pat` is an initial run of `l`. -/
def leadsWith : List Char → List Char → Bool
  | [], _ => true
  | _ :: _, [] => false
  | p :: ps, c :: cs => p == c && leadsWith ps cs

/-- Substring occurrence test over character lists (helper for `ilikeContains`). -/
def occursIn (pat : List Char) : List Char → Bool
  | [] => leadsWith pat []
  | c :: cs => leadsWith pat (c :: cs) || occursIn pat cs

/-- Case-insensitive substring match of a filter against a stored field, the
model of the `ILIKE '%…%'` filters on lines 693 and 696 (the case fold is
applied character by character). -/
def ilikeContains (field pat : String) : Bool :=
  occursIn (pat.toList.map Char.toLower) (field.toList.map Char.toLower)

/-- Row predicate of the filtered list query built by `GetAllSongs` (lines
691-715): an empty filter imposes no condition; `group` and `song` filters are
case-insensitive substring matches; the release-date filter is exact string
equality on the release-date column. -/
def matchesFilters (gf sf rf : String) (s : Song) : Bool :=
  (gf == "" || ilikeContains s.group gf)
    && (sf == "" || ilikeContains s.song sf)
    && (rf == "" || s.releaseDate == rf)

/-- Columns of the `songs` table created by `database.Init`:
`AutoMigrate(&models.Song{})` names each column by GORM's snake_case naming
strategy, except `Group`, which carries the explicit tag `gorm:"column:group"`.
In particular the `ReleaseDate` field becomes the column `release_date`. -/
def songColumns : List String :=
  ["id", "group", "song", "release_date", "text", "link"]

/-- Column name referenced by the release-date filter of `GetAllSongs`
(line 714: `query.Where("\x22releaseDate\x22 = ?", releaseDate)`). -/
def releaseDateFilterColumn : String := "releaseDate"

/-- Response body of the list endpoint, from `models.ResponseAllSongs`. -/
structure ResponseAllSongs where
  total : Nat
  page : Int
  limit : Int
  songs : List Song
  deriving Repr, DecidableEq

/-- Outcome of the list handler: 400 with a message, 500 with a message (a
failing store query), or 200 with a response body. -/
inductive ListResult
  | badRequest (msg : String)
  | storeError (msg : String)
  | ok (resp : ResponseAllSongs)
  deriving Repr, DecidableEq

/-- The GET `/songs` handler, `GetAllSongs` (lines 662-748): reject
non-positive page or limit with 400; validate a non-empty release-date filter
(400 on invalid format or future date); then run the filtered count and the
filtered, offset/limit-paginated find.  When the release-date filter is active
the built query references the column `"releaseDate"`, which the migrated table
does not have, so PostgreSQL rejects the count query and the handler answers
500 "Failed to retrieve total count"; otherwise the count is the number of
matching rows in the whole store and the page is the window of size `limit` at
offset `(page-1)*limit` of the filtered rows in storage order.  The offset is
computed in Go's wrapping 64-bit `int` arithmetic; GORM emits an OFFSET clause
only for positive values, so a non-positive wrapped offset behaves as offset 0,
which `Int.toNat` of the wrapped value captures. -/
def getAllSongs (today : Date) (store : List Song) (gf sf rf : String)
    (page limit : Int) : ListResult :=
  if page < 1 then .badRequest "Invalid page parameter"
  else if limit < 1 then .badRequest "Invalid limit parameter"
  else
    match validateReleaseDate today rf with
    | .invalidFormat => .badRequest "Invalid date format. Expected format: DD.MM.YYYY"
    | .futureDate => .badRequest "Release date cannot be in the future"
    | .valid =>
      if rf ≠ "" ∧ releaseDateFilterColumn ∉ songColumns then
        .storeError "Failed to retrieve total count"
      else
        let filtered := store.filter (matchesFilters gf sf rf)
        let offset := (wrap64 ((page - 1) * limit)).toNat
        .ok ⟨filtered.length, page, limit, (filtered.drop offset).take limit.toNat⟩

/-- Duplicate test of the create flow, modelling the lookup
`DB.Where("song = ? AND \x22group\x22 = ?", input.Song, input.Group).First(…)`
(line 865): exact, case-sensitive string equality on both columns. -/
def sameGroupSong (input : SongInput) (s : Song) : Bool :=
  s.song == input.song && s.group == input.group

/-- Outcome of the create handler: 400 with a message, 409, 500 from the
enrichment call, or 200 with the persisted song. -/
inductive CreateResult
  | badRequest (msg : String)
  | conflict
  | upstreamError
  | created (s : Song)
  deriving Repr, DecidableEq

/-- The POST `/songs` handler, `CreateSong` (lines 852-898): gin's
`binding:"required"` rejects a body with an absent or empty `group` or `song`
(400); an existing song with the same (group, song) pair yields 409; a failing
enrichment call (`utils.FetchSongDetails`, modelled as `enrich = none` for any
network / non-200 / decode failure) yields 500; otherwise the new song is
persisted with `group`/`song` from the input and `release_date`/`text`/`link`
taken verbatim from the enrichment result, under the store-assigned fresh
primary key `newId`.  The function returns the handler outcome and the
successor store. -/
def createSong (store : List Song) (input : SongInput)
    (enrich : Option SongDetail) (newId : Nat) : CreateResult × List Song :=
  if input.group = "" ∨ input.song = "" then
    (.badRequest "binding failed: required field missing", store)
  else if store.any (sameGroupSong input) then
    (.conflict, store)
  else
    match enrich with
    | none => (.upstreamError, store)
    | some d =>
      let newSong : Song :=
        ⟨newId, input.group, input.song, d.releaseDate, d.text, d.link⟩
      (.created newSong, store ++ [newSong])

/-- GORM struct-argument `Updates` semantics (line 959,
`DB.Model(&song).Updates(input)`): every zero-valued field of the update struct
is skipped (for the string columns the zero value is `""`), and the primary key
is never reassigned. -/
def applyUpdates (orig input : Song) : Song :=
  { id := orig.id
    group := if input.group = "" then orig.group else input.group
    song := if input.song = "" then orig.song else input.song
    releaseDate := if input.releaseDate = "" then orig.releaseDate else input.releaseDate
    text := if input.text = "" then orig.text else input.text
    link := if input.link = "" then orig.link else input.link }

/-- Outcome of the update handler: 404, 400 with a message, or 200 with the
updated song. -/
inductive UpdateResult
  | notFound
  | badRequest (msg : String)
  | ok (s : Song)
  deriving Repr, DecidableEq

/-- The PATCH `/songs/{id}` handler, `UpdateSong` (lines 914-968): resolve the
song by id (404 if absent); reject a body whose `id` is non-zero and different
from the stored id (400); validate a non-empty `release_date` in the body (400
on invalid format or future date); then apply the non-zero fields of the body
onto the stored row (`Updates` targets the row with the stored primary key) and
answer with the updated song. -/
def updateSong (today : Date) (store : List Song) (i : Nat) (input : Song) :
    UpdateResult × List Song :=
  match findSong store i with
  | none => (.notFound, store)
  | some song =>
    if input.id ≠ 0 ∧ input.id ≠ song.id then
      (.badRequest "Changing the song ID is not allowed", store)
    else
      match validateReleaseDate today input.releaseDate with
      | .invalidFormat =>
        (.badRequest "Invalid date format. Expected format: DD.MM.YYYY", store)
      | .futureDate =>
        (.badRequest "Release date cannot be in the future", store)
      | .valid =>
        (.ok (applyUpdates song input),
          store.map (fun s => if s.id = song.id then applyUpdates s input else s))

/-- Outcome of the delete handler: 404 or 200 with a success message. -/
inductive DeleteResult
  | notFound
  | deleted (msg : String)
  deriving Repr, DecidableEq

/-- The DELETE `/songs/{id}` handler, `DeleteSong` (lines 980-1000): resolve
the song by id (404 if absent), delete the row with that primary key, answer
with a success message. -/
def deleteSong (store : List Song) (i : Nat) : DeleteResult × List Song :=
  match findSong store i with
  | none => (.notFound, store)
  | some song =>
    (.deleted "Song deleted successfully",
      store.filter (fun s => !(s.id == song.id)))

/-- Sample stored song used by the concrete witnesses (the spec's end-to-end
example record). -/
def museSong : Song :=
  ⟨1, "Muse", "Uprising", "03.09.2009", "verse one\n\nverse two", "http://x"⟩

/-- Sample current day used by the concrete witnesses. -/
def sampleToday : Date := ⟨11, 10, 2026⟩

/-! Theorems about the embedded handlers. -/

/-- Go's int64 wrap is the identity on values already in [0, 2^63). -/
theorem wrap64_eq_self (x : Int) (h0 : 0 ≤ x) (h1 : x < 9223372036854775808) :
    wrap64 x = x := by
  unfold wrap64
  omega

/-- Matching a pattern against itself: a list is an initial run of itself. -/
theorem leadsWith_self (l : List Char) : leadsWith l l = true := by
  induction l with
  | nil => rfl
  | cons c cs ih => simp [leadsWith, ih]

/-- Matching a pattern against itself: a list occurs in itself. -/
theorem occursIn_self (l : List Char) : occursIn l l = true := by
  cases l with
  | nil => rfl
  | cons c cs => simp [occursIn, leadsWith_self]

/-- C1: for every song text, page ≥ 1 and limit ≥ 1, with V the split of the
text on two consecutive newlines (an empty text yields `[""]`), when
`(page-1)*limit < V.length` the verses endpoint returns exactly the slice
`V[(page-1)*limit : min (page*limit) V.length]` in appearance order, together
with `total = V.length`.  The two extra bounds only encode Go's representation
limits: a slice never holds more than 2^62 verses in any run of the program
(2^63 bytes of address space), and `strconv.Atoi` only produces limits up to
2^63 - 1; inside them the int64 arithmetic never wraps. -/
theorem getSongVerses_slice (store : List Song) (i : Nat) (song : Song)
    (page limit : Nat)
    (hfind : findSong store i = some song) (hp : 1 ≤ page) (hl : 1 ≤ limit)
    (hlen : (splitText song.text).length ≤ 4611686018427387904)
    (hlim : limit ≤ 9223372036854775807)
    (hin : (page - 1) * limit < (splitText song.text).length) :
    splitText "" = [""]
    ∧ getSongVerses store i page limit =
        .ok ⟨song.song, song.group, song.releaseDate,
          ((splitText song.text).drop ((page - 1) * limit)).take
            (min (page * limit) (splitText song.text).length - (page - 1) * limit),
          page, limit, (splitText song.text).length⟩ := by
  refine ⟨rfl, ?_⟩
  obtain ⟨p, rfl⟩ : ∃ p, page = p + 1 := ⟨page - 1, (Nat.succ_pred_eq_of_pos hp).symm⟩
  have hin2 : p * limit < (splitText song.text).length := by
    simpa using hin
  have hsum : p * limit + limit < 9223372036854775808 := by
    rcases Nat.eq_zero_or_pos p with h0 | h0
    · subst h0
      omega
    · have hle : limit ≤ p * limit := by
        calc limit = 1 * limit := (one_mul limit).symm
        _ ≤ p * limit := Nat.mul_le_mul_right limit h0
      omega
  have e1 : ((((p + 1 : Nat) : Int)) - 1) * ((limit : Nat) : Int) =
      ((p * limit : Nat) : Int) := by
    push_cast
    ring
  have hs : wrap64 ((p * limit : Nat) : Int) = ((p * limit : Nat) : Int) :=
    wrap64_eq_self _ (by positivity) (by omega)
  have e2 : ((p * limit : Nat) : Int) + ((limit : Nat) : Int) =
      ((p * limit + limit : Nat) : Int) := by
    push_cast
    ring
  have hs2 : wrap64 ((p * limit + limit : Nat) : Int) =
      ((p * limit + limit : Nat) : Int) :=
    wrap64_eq_self _ (by positivity) (by omega)
  simp only [getSongVerses, hfind, e1, hs, e2, hs2]
  rw [if_neg (by omega), if_neg (by omega), if_neg (by omega)]
  have e3 : (if ((p * limit + limit : Nat) : Int) > ((splitText song.text).length : Int)
        then ((splitText song.text).length : Int) else ((p * limit + limit : Nat) : Int))
      = ((min ((p + 1) * limit) (splitText song.text).length : Nat) : Int) := by
    rw [Nat.succ_mul]
    rcases le_or_lt (p * limit + limit) (splitText song.text).length with h | h
    · rw [if_neg (by omega), min_eq_left h]
    · rw [if_pos (by omega), min_eq_right (by omega)]
  rw [e3]
  rw [if_neg (by omega)]
  have e4 : (((p * limit : Nat) : Int)).toNat = p * limit := by omega
  have e5 : (((min ((p + 1) * limit) (splitText song.text).length : Nat) : Int) -
      ((p * limit : Nat) : Int)).toNat
      = min ((p + 1) * limit) (splitText song.text).length - p * limit := by omega
  rw [e4, e5]
  simp

/-- C2 (amended): for a stored song and page ≥ 1, limit ≥ 1 whose product
`(page-1)*limit` fits in Go's int64 and is at or beyond the verse count, the
verses endpoint answers 200 with an empty verse list and the full verse count
as total; a 404 arises exactly when no song with the given id exists, never for
a page beyond the end.  (When the product overflows int64 the handler uses the
wrapped start instead, so a page far beyond the end can wrap back into the
verse list — see the counterexample.) -/
theorem getSongVerses_beyond_end (store : List Song) (i : Nat) (song : Song)
    (page limit : Nat)
    (hfind : findSong store i = some song) (hp : 1 ≤ page) (hl : 1 ≤ limit)
    (hfit : (page - 1) * limit < 9223372036854775808)
    (hout : (splitText song.text).length ≤ (page - 1) * limit) :
    getSongVerses store i page limit =
      .ok ⟨song.song, song.group, song.releaseDate, [], page, limit,
        (splitText song.text).length⟩
    ∧ ∀ (store2 : List Song) (i2 : Nat) (page2 limit2 : Int),
        (getSongVerses store2 i2 page2 limit2 = .notFound ↔
          findSong store2 i2 = none) := by
  constructor
  · obtain ⟨p, rfl⟩ : ∃ p, page = p + 1 := ⟨page - 1, (Nat.succ_pred_eq_of_pos hp).symm⟩
    have hout2 : (splitText song.text).length ≤ p * limit := by
      simpa using hout
    have hfit2 : p * limit < 9223372036854775808 := by
      simpa using hfit
    have e1 : ((((p + 1 : Nat) : Int)) - 1) * ((limit : Nat) : Int) =
        ((p * limit : Nat) : Int) := by
      push_cast
      ring
    have hs : wrap64 ((p * limit : Nat) : Int) = ((p * limit : Nat) : Int) :=
      wrap64_eq_self _ (by positivity) (by omega)
    simp only [getSongVerses, hfind, e1, hs]
    rw [if_neg (by omega), if_neg (by omega), if_pos (by omega)]
  · intro store2 i2 page2 limit2
    rcases hf : findSong store2 i2 with _ | s
    · simp [getSongVerses, hf]
    · simp only [getSongVerses, hf]
      constructor
      · intro h
        repeat' split at h
        all_goals exact absurd h (by simp)
      · intro h
        exact absurd h (by simp)

/-- C2 counterexample: the original claim fails once `(page-1)*limit` overflows
int64.  At page = 2^62 + 1 and limit = 4 over a two-verse song the exact
product is 2^64 — at or beyond the verse count, so the claim demands an empty
verse list — but the program's wrapped start is 0 and it returns both verses
with 200. -/
theorem getSongVerses_beyond_end_counterexample :
    findSong [museSong] 1 = some museSong
    ∧ (splitText museSong.text).length ≤ (4611686018427387905 - 1) * 4
    ∧ (4611686018427387905 - 1) * 4 = 18446744073709551616
    ∧ getSongVerses [museSong] 1 4611686018427387905 4 =
        .ok ⟨"Uprising", "Muse", "03.09.2009", ["verse one", "verse two"],
          4611686018427387905, 4, 2⟩ := by
  exact ⟨by decide, by decide, by decide, by decide⟩

/-- C8: deleting an id with no stored song returns 404 and leaves the store
unchanged, and after a successful delete of an id a second delete of the same
id returns 404. -/
theorem deleteSong_semantics (store : List Song) (i : Nat) :
    (findSong store i = none → deleteSong store i = (.notFound, store))
    ∧ ∀ (msg : String) (store2 : List Song),
        deleteSong store i = (.deleted msg, store2) →
        deleteSong store2 i = (.notFound, store2) := by
  constructor
  · intro h
    simp [deleteSong, h]
  · intro msg store2 h
    rcases hf : findSong store i with _ | song
    · simp [deleteSong, hf] at h
    · have hf2 : store.find? (fun s => s.id == i) = some song := hf
      have hid : (song.id == i) = true := by simpa using List.find?_some hf2
      have hieq : song.id = i := by simpa using hid
      simp only [deleteSong, hf] at h
      have hst : store2 = store.filter (fun s => !(s.id == song.id)) := by
        have := congrArg Prod.snd h
        simpa using this.symm
      have hnone : findSong store2 i = none := by
        rw [hst]
        unfold findSong
        rw [List.find?_eq_none]
        intro x hx
        have hmem := List.mem_filter.mp hx
        have : (x.id == song.id) = false := by
          simpa using hmem.2
        simpa [hieq] using this
      simp [deleteSong, hnone]

/-- C3: wherever a release-date string is optional (list filter and partial
update), the Date Validator accepts an empty string (validation skipped),
rejects a non-empty string that does not parse under the exact DD.MM.YYYY
format with the InvalidFormat kind, rejects a string parsing to a date strictly
later than the current day with the distinct FutureDate kind, and accepts every
other non-empty string (today included). -/
theorem validateReleaseDate_cases (today : Date) (s : String) :
    validateReleaseDate today "" = .valid
    ∧ (s ≠ "" → parseDDMMYYYY s = none → validateReleaseDate today s = .invalidFormat)
    ∧ (∀ d : Date, parseDDMMYYYY s = some d → dateAfter d today = true →
        validateReleaseDate today s = .futureDate)
    ∧ (∀ d : Date, parseDDMMYYYY s = some d → dateAfter d today = false →
        validateReleaseDate today s = .valid) := by
  have hempty : parseDDMMYYYY "" = none := rfl
  refine ⟨rfl, ?_, ?_, ?_⟩
  · intro hne hp
    simp [validateReleaseDate, hne, hp]
  · intro d hp hf
    have hne : s ≠ "" := by
      rintro rfl
      rw [hempty] at hp
      exact Option.noConfusion hp
    simp [validateReleaseDate, hne, hp, hf]
  · intro d hp hf
    have hne : s ≠ "" := by
      rintro rfl
      rw [hempty] at hp
      exact Option.noConfusion hp
    simp [validateReleaseDate, hne, hp, hf]

/-- C4: partial update applies only non-zero fields: a body whose id is
non-zero and different from the stored id is rejected with 400 leaving the
store — including the stored id — unchanged, and on the accepted path every
zero-valued (omitted) field of the body keeps its pre-update value, the id
included. -/
theorem updateSong_partial_semantics (today : Date) (store : List Song) (i : Nat)
    (input song : Song) (hfind : findSong store i = some song) :
    (input.id ≠ 0 → input.id ≠ song.id →
      updateSong today store i input =
        (.badRequest "Changing the song ID is not allowed", store))
    ∧ (validateReleaseDate today input.releaseDate = .valid →
        (input.id = 0 ∨ input.id = song.id) →
        updateSong today store i input =
          (.ok (applyUpdates song input),
            store.map (fun s => if s.id = song.id then applyUpdates s input else s))
        ∧ (applyUpdates song input).id = song.id
        ∧ (input.group = "" → (applyUpdates song input).group = song.group)
        ∧ (input.song = "" → (applyUpdates song input).song = song.song)
        ∧ (input.releaseDate = "" →
            (applyUpdates song input).releaseDate = song.releaseDate)
        ∧ (input.text = "" → (applyUpdates song input).text = song.text)
        ∧ (input.link = "" → (applyUpdates song input).link = song.link)) := by
  constructor
  · intro h1 h2
    simp [updateSong, hfind, h1, h2]
  · intro hval hid
    have hguard : ¬(input.id ≠ 0 ∧ input.id ≠ song.id) := by tauto
    refine ⟨?_, rfl, ?_, ?_, ?_, ?_, ?_⟩
    · simp [updateSong, hfind, hguard, hval]
    · intro h; simp [applyUpdates, h]
    · intro h; simp [applyUpdates, h]
    · intro h; simp [applyUpdates, h]
    · intro h; simp [applyUpdates, h]
    · intro h; simp [applyUpdates, h]

/-- C5: in the create flow (for a body passing the required-fields binding), an
existing song with the same (group, song) pair yields Conflict, a failing
enrichment call yields UpstreamError, and in every non-success outcome no song
is inserted — the store is unchanged. -/
theorem createSong_error_paths (store : List Song) (input : SongInput)
    (enrich : Option SongDetail) (newId : Nat) :
    (input.group ≠ "" → input.song ≠ "" →
      store.any (sameGroupSong input) = true →
      createSong store input enrich newId = (.conflict, store))
    ∧ (input.group ≠ "" → input.song ≠ "" →
        store.any (sameGroupSong input) = false → enrich = none →
        createSong store input enrich newId = (.upstreamError, store))
    ∧ ∀ (r : CreateResult) (store2 : List Song),
        createSong store input enrich newId = (r, store2) →
        (∀ s : Song, r ≠ .created s) → store2 = store := by
  refine ⟨?_, ?_, ?_⟩
  · intro h1 h2 h3
    simp [createSong, h1, h2, h3]
  · intro h1 h2 h3 h4
    simp [createSong, h1, h2, h3, h4]
  · intro r store2 h hnc
    unfold createSong at h
    split at h
    · cases h; rfl
    · split at h
      · cases h; rfl
      · split at h
        · cases h; rfl
        · cases h
          exact absurd rfl (hnc _)

/-- C9: the create flow persists the enrichment result's release date, text and
link verbatim, with no Date Validator on this path: whatever string the
enrichment returns — malformed under DD.MM.YYYY or denoting a future date —
ends up stored unchanged. -/
theorem createSong_enrichment_verbatim (store : List Song) (input : SongInput)
    (d : SongDetail) (newId : Nat)
    (hg : input.group ≠ "") (hs : input.song ≠ "")
    (hdup : store.any (sameGroupSong input) = false) :
    createSong store input (some d) newId =
      (.created ⟨newId, input.group, input.song, d.releaseDate, d.text, d.link⟩,
        store ++ [⟨newId, input.group, input.song, d.releaseDate, d.text, d.link⟩]) := by
  simp [createSong, hg, hs, hdup]

/-- C10: the duplicate check of the create flow compares group and song by
exact, case-sensitive equality — two create requests whose pairs differ only in
letter case both succeed — while the list endpoint's group and song filters
match case-insensitively. -/
theorem createSong_case_sensitive_duplicate (store : List Song)
    (i1 i2 : SongInput) (d1 d2 : SongDetail) (id1 id2 : Nat)
    (h1g : i1.group ≠ "") (h1s : i1.song ≠ "")
    (h2g : i2.group ≠ "") (h2s : i2.song ≠ "")
    (hdiff : i1.group ≠ i2.group ∨ i1.song ≠ i2.song)
    (hnd1 : store.any (sameGroupSong i1) = false)
    (hnd2 : store.any (sameGroupSong i2) = false) :
    (∃ (s1 : Song) (store1 : List Song) (s2 : Song) (store2 : List Song),
      createSong store i1 (some d1) id1 = (.created s1, store1)
      ∧ createSong store1 i2 (some d2) id2 = (.created s2, store2))
    ∧ (∀ (s : Song) (gf : String),
        s.group.toList.map Char.toLower = gf.toList.map Char.toLower →
        matchesFilters gf "" "" s = true)
    ∧ (∀ (s : Song) (sf : String),
        s.song.toList.map Char.toLower = sf.toList.map Char.toLower →
        matchesFilters "" sf "" s = true) := by
  refine ⟨?_, ?_, ?_⟩
  · refine ⟨⟨id1, i1.group, i1.song, d1.releaseDate, d1.text, d1.link⟩,
      store ++ [⟨id1, i1.group, i1.song, d1.releaseDate, d1.text, d1.link⟩],
      ⟨id2, i2.group, i2.song, d2.releaseDate, d2.text, d2.link⟩,
      (store ++ [⟨id1, i1.group, i1.song, d1.releaseDate, d1.text, d1.link⟩]) ++
        [⟨id2, i2.group, i2.song, d2.releaseDate, d2.text, d2.link⟩], ?_, ?_⟩
    · simp [createSong, h1g, h1s, hnd1]
    · have hone : sameGroupSong i2 ⟨id1, i1.group, i1.song, d1.releaseDate, d1.text, d1.link⟩ = false := by
        rcases hdiff with h | h <;> simp [sameGroupSong, h]
      have happ : (store ++ [(⟨id1, i1.group, i1.song, d1.releaseDate, d1.text, d1.link⟩ : Song)]).any
          (sameGroupSong i2) = false := by
        rw [List.any_append]
        simp [hnd2, hone]
      simp [createSong, h2g, h2s, happ]
  · intro s gf h
    have h2 : List.map Char.toLower gf.data = List.map Char.toLower s.group.data := by
      simpa [String.toList] using h.symm
    simp only [matchesFilters, ilikeContains, String.toList, h2]
    simp [occursIn_self]
  · intro s sf h
    have h2 : List.map Char.toLower sf.data = List.map Char.toLower s.song.data := by
      simpa [String.toList] using h.symm
    simp only [matchesFilters, ilikeContains, String.toList, h2]
    simp [occursIn_self]

/-- C6 (code bug): the release-date filter of the list handler references the
column `"releaseDate"`, but the table migrated from `models.Song` has the
column `release_date`, so a list request with a validated release-date filter
makes the count query fail and the handler answer 500 — it never returns the
release_date-equal songs.  Concretely, with a stored song whose release date
equals the filter value, the handler returns the store error instead of that
song. -/
theorem getAllSongs_releaseDate_column_bug :
    releaseDateFilterColumn ∉ songColumns
    ∧ "release_date" ∈ songColumns
    ∧ getAllSongs ⟨11, 10, 2026⟩ [⟨2, "Queen", "One", "05.03.2024", "t", "l"⟩]
        "" "" "05.03.2024" 1 5 = .storeError "Failed to retrieve total count"
    ∧ matchesFilters "" "" "05.03.2024" ⟨2, "Queen", "One", "05.03.2024", "t", "l"⟩ = true := by
  exact ⟨by decide, by decide, by decide, by decide⟩

/-- C7 (amended): for every list request without a release-date filter, with
page ≥ 1, limit ≥ 1 and `(page-1)*limit` fitting in Go's int64, the returned
total is the number of matching songs in the whole store — independent of page
and limit — the returned songs are the window of size at most limit at offset
(page-1)*limit of the filtered store, and zero matches yield an empty list with
total 0, not an error.  (A non-empty release-date filter that passes validation
instead fails with a 500 store error — the C6 column bug — and a product
overflowing int64 wraps the offset, returning early rows instead of the exact
window; see the counterexample for both.) -/
theorem getAllSongs_count_and_window (today : Date) (store : List Song)
    (gf sf : String) (page limit : Nat) (hp : 1 ≤ page) (hl : 1 ≤ limit)
    (hfit : (page - 1) * limit < 9223372036854775808) :
    getAllSongs today store gf sf "" page limit =
      .ok ⟨(store.filter (matchesFilters gf sf "")).length, page, limit,
        ((store.filter (matchesFilters gf sf "")).drop ((page - 1) * limit)).take limit⟩
    ∧ (store.filter (matchesFilters gf sf "") = [] →
        getAllSongs today store gf sf "" page limit = .ok ⟨0, page, limit, []⟩) := by
  obtain ⟨p, rfl⟩ : ∃ q, page = q + 1 := ⟨page - 1, (Nat.succ_pred_eq_of_pos hp).symm⟩
  have hfit2 : p * limit < 9223372036854775808 := by
    simpa using hfit
  have e1 : ((((p + 1 : Nat) : Int)) - 1) * ((limit : Nat) : Int) =
      ((p * limit : Nat) : Int) := by
    push_cast
    ring
  have hs : wrap64 ((p * limit : Nat) : Int) = ((p * limit : Nat) : Int) :=
    wrap64_eq_self _ (by positivity) (by omega)
  have e4 : (((p * limit : Nat) : Int)).toNat = p * limit := by omega
  have e2 : ((limit : Nat) : Int).toNat = limit := by omega
  have hmain : getAllSongs today store gf sf "" (p + 1 : Nat) (limit : Nat) =
      .ok ⟨(store.filter (matchesFilters gf sf "")).length, (p + 1 : Nat), (limit : Nat),
        ((store.filter (matchesFilters gf sf "")).drop (p * limit)).take limit⟩ := by
    simp only [getAllSongs, validateReleaseDate, e1, hs, e4, e2]
    rw [if_neg (by omega), if_neg (by omega)]
    simp
  constructor
  · simpa using hmain
  · intro hnil
    rw [hmain, hnil]
    simp

/-- C7 counterexample, two parts.  First, a list request whose validated
release-date filter matches a stored song does not return that song and its
count — it fails with the 500 store error.  Second, at page = 2^62 + 1 and
limit = 4 the exact offset is 2^64, so the claim's window over a one-song store
is empty, but the program's wrapped offset is 0 and it returns the first song. -/
theorem getAllSongs_count_and_window_counterexample :
    (getAllSongs ⟨11, 10, 2026⟩ [museSong] "" "" "03.09.2009" 1 5 =
        .storeError "Failed to retrieve total count"
      ∧ ([museSong].filter (matchesFilters "" "" "03.09.2009")).length = 1)
    ∧ (getAllSongs ⟨11, 10, 2026⟩ [museSong] "" "" "" 4611686018427387905 4 =
        .ok ⟨1, 4611686018427387905, 4, [museSong]⟩
      ∧ (4611686018427387905 - 1) * 4 = 18446744073709551616
      ∧ ([museSong].filter (matchesFilters "" "" "")).drop
          ((4611686018427387905 - 1) * 4) = []) := by
  exact ⟨⟨by decide, by decide⟩, by decide, by decide, by decide⟩

/-- C1 witness: the spec's end-to-end example, page 2 and limit 1 over a
two-verse text. -/
theorem getSongVerses_slice_witness :
    findSong [museSong] 1 = some museSong
    ∧ (2 - 1) * 1 < (splitText museSong.text).length
    ∧ (splitText "" = [""]
        ∧ getSongVerses [museSong] 1 ((2 : Nat) : Int) ((1 : Nat) : Int) =
          .ok ⟨museSong.song, museSong.group, museSong.releaseDate,
            ((splitText museSong.text).drop ((2 - 1) * 1)).take
              (min (2 * 1) (splitText museSong.text).length - (2 - 1) * 1),
            ((2 : Nat) : Int), ((1 : Nat) : Int), (splitText museSong.text).length⟩)
    ∧ getSongVerses [museSong] 1 2 1 =
        .ok ⟨"Uprising", "Muse", "03.09.2009", ["verse two"], 2, 1, 2⟩ :=
  ⟨by decide, by decide,
    getSongVerses_slice [museSong] 1 museSong 2 1 (by decide) (by decide) (by decide)
      (by decide) (by decide) (by decide),
    by decide⟩

/-- C2 witness: page 3 and limit 1 over a two-verse text answers 200 with an
empty verse list and total 2, and a 404 arises exactly for an absent id. -/
theorem getSongVerses_beyond_end_witness :
    findSong [museSong] 1 = some museSong
    ∧ (splitText museSong.text).length ≤ (3 - 1) * 1
    ∧ getSongVerses [museSong] 1 ((3 : Nat) : Int) ((1 : Nat) : Int) =
        .ok ⟨museSong.song, museSong.group, museSong.releaseDate, [],
          ((3 : Nat) : Int), ((1 : Nat) : Int), (splitText museSong.text).length⟩
    ∧ (getSongVerses [museSong] 7 1 1 = .notFound ↔ findSong [museSong] 7 = none) :=
  ⟨by decide, by decide,
    (getSongVerses_beyond_end [museSong] 1 museSong 3 1 (by decide) (by decide)
      (by decide) (by decide) (by decide)).1,
    (getSongVerses_beyond_end [museSong] 1 museSong 3 1 (by decide) (by decide)
      (by decide) (by decide) (by decide)).2 [museSong] 7 1 1⟩

/-- C8 witness: deleting an absent id answers 404 leaving the store unchanged,
and re-deleting a just-deleted id answers 404. -/
theorem deleteSong_semantics_witness :
    deleteSong [museSong] 3 = (.notFound, [museSong])
    ∧ deleteSong [] 1 = (.notFound, []) :=
  ⟨(deleteSong_semantics [museSong] 3).1 (by decide),
    (deleteSong_semantics [museSong] 1).2 "Song deleted successfully" [] (by decide)⟩

/-- C3 witness: concrete strings exercising all four validator cases at a fixed
current day. -/
theorem validateReleaseDate_cases_witness :
    validateReleaseDate sampleToday "" = .valid
    ∧ validateReleaseDate sampleToday "2024-03-05" = .invalidFormat
    ∧ validateReleaseDate sampleToday "12.10.2026" = .futureDate
    ∧ validateReleaseDate sampleToday "11.10.2026" = .valid :=
  ⟨(validateReleaseDate_cases sampleToday "").1,
    (validateReleaseDate_cases sampleToday "2024-03-05").2.1 (by decide) (by decide),
    (validateReleaseDate_cases sampleToday "12.10.2026").2.2.1 ⟨12, 10, 2026⟩
      (by decide) (by decide),
    (validateReleaseDate_cases sampleToday "11.10.2026").2.2.2 ⟨11, 10, 2026⟩
      (by decide) (by decide)⟩

/-- C4 witness: an id-changing body is rejected with the store unchanged, and a
body supplying only `text` updates only `text`. -/
theorem updateSong_partial_semantics_witness :
    updateSong sampleToday [museSong] 1 ⟨5, "", "", "", "", ""⟩ =
      (.badRequest "Changing the song ID is not allowed", [museSong])
    ∧ updateSong sampleToday [museSong] 1 ⟨0, "", "", "", "new text", ""⟩ =
        (.ok (applyUpdates museSong ⟨0, "", "", "", "new text", ""⟩),
          [museSong].map (fun s =>
            if s.id = museSong.id then applyUpdates s ⟨0, "", "", "", "new text", ""⟩ else s))
    ∧ (applyUpdates museSong ⟨0, "", "", "", "new text", ""⟩).id = museSong.id
    ∧ (applyUpdates museSong ⟨0, "", "", "", "new text", ""⟩).group = museSong.group
    ∧ (applyUpdates museSong ⟨0, "", "", "", "new text", ""⟩).link = museSong.link :=
  ⟨(updateSong_partial_semantics sampleToday [museSong] 1 ⟨5, "", "", "", "", ""⟩ museSong
      (by decide)).1 (by decide) (by decide),
    ((updateSong_partial_semantics sampleToday [museSong] 1 ⟨0, "", "", "", "new text", ""⟩ museSong
      (by decide)).2 (by decide) (Or.inl rfl)).1,
    ((updateSong_partial_semantics sampleToday [museSong] 1 ⟨0, "", "", "", "new text", ""⟩ museSong
      (by decide)).2 (by decide) (Or.inl rfl)).2.1,
    ((updateSong_partial_semantics sampleToday [museSong] 1 ⟨0, "", "", "", "new text", ""⟩ museSong
      (by decide)).2 (by decide) (Or.inl rfl)).2.2.1 rfl,
    ((updateSong_partial_semantics sampleToday [museSong] 1 ⟨0, "", "", "", "new text", ""⟩ museSong
      (by decide)).2 (by decide) (Or.inl rfl)).2.2.2.2.2.2 rfl⟩

/-- C5 witness: a duplicate (group, song) pair yields 409, a failing enrichment
yields 500, and both leave the store unchanged. -/
theorem createSong_error_paths_witness :
    createSong [museSong] ⟨"Muse", "Uprising"⟩ (some ⟨"01.01.2020", "t", "l"⟩) 2 =
      (.conflict, [museSong])
    ∧ createSong [museSong] ⟨"Queen", "One"⟩ none 2 = (.upstreamError, [museSong])
    ∧ (createSong [museSong] ⟨"Queen", "One"⟩ none 2).2 = [museSong] :=
  ⟨(createSong_error_paths [museSong] ⟨"Muse", "Uprising"⟩
      (some ⟨"01.01.2020", "t", "l"⟩) 2).1 (by decide) (by decide) (by decide),
    (createSong_error_paths [museSong] ⟨"Queen", "One"⟩ none 2).2.1
      (by decide) (by decide) (by decide) rfl,
    (createSong_error_paths [museSong] ⟨"Queen", "One"⟩ none 2).2.2
      .upstreamError (createSong [museSong] ⟨"Queen", "One"⟩ none 2).2 (by decide)
      (fun s h => nomatch h)⟩

/-- C9 witness: an enrichment result whose release date is malformed under
DD.MM.YYYY is persisted verbatim by the create flow. -/
theorem createSong_enrichment_verbatim_witness :
    parseDDMMYYYY "31.02.2099" = none
    ∧ createSong [] ⟨"Muse", "Uprising"⟩ (some ⟨"31.02.2099", "t", "l"⟩) 1 =
        (.created ⟨1, "Muse", "Uprising", "31.02.2099", "t", "l"⟩,
          [⟨1, "Muse", "Uprising", "31.02.2099", "t", "l"⟩]) :=
  ⟨by decide,
    createSong_enrichment_verbatim [] ⟨"Muse", "Uprising"⟩ ⟨"31.02.2099", "t", "l"⟩ 1
      (by decide) (by decide) (by decide)⟩

/-- C10 witness: creating (Muse, Uprising) and then (muse, uprising) both
succeed without a conflict, while the list filters match case-insensitively. -/
theorem createSong_case_sensitive_duplicate_witness :
    (∃ (s1 : Song) (store1 : List Song) (s2 : Song) (store2 : List Song),
      createSong [] ⟨"Muse", "Uprising"⟩ (some ⟨"03.09.2009", "t", "l"⟩) 1 =
        (.created s1, store1)
      ∧ createSong store1 ⟨"muse", "uprising"⟩ (some ⟨"03.09.2009", "t", "l"⟩) 2 =
        (.created s2, store2))
    ∧ matchesFilters "MUSE" "" "" museSong = true
    ∧ matchesFilters "" "UPRISING" "" museSong = true :=
  ⟨(createSong_case_sensitive_duplicate [] ⟨"Muse", "Uprising"⟩ ⟨"muse", "uprising"⟩
      ⟨"03.09.2009", "t", "l"⟩ ⟨"03.09.2009", "t", "l"⟩ 1 2
      (by decide) (by decide) (by decide) (by decide) (by decide)
      (by decide) (by decide)).1,
    (createSong_case_sensitive_duplicate [] ⟨"Muse", "Uprising"⟩ ⟨"muse", "uprising"⟩
      ⟨"03.09.2009", "t", "l"⟩ ⟨"03.09.2009", "t", "l"⟩ 1 2
      (by decide) (by decide) (by decide) (by decide) (by decide)
      (by decide) (by decide)).2.1 museSong "MUSE" (by decide),
    (createSong_case_sensitive_duplicate [] ⟨"Muse", "Uprising"⟩ ⟨"muse", "uprising"⟩
      ⟨"03.09.2009", "t", "l"⟩ ⟨"03.09.2009", "t", "l"⟩ 1 2
      (by decide) (by decide) (by decide) (by decide) (by decide)
      (by decide) (by decide)).2.2 museSong "UPRISING" (by decide)⟩

/-- C7 witness: a one-song store listed with a matching group filter returns
total 1 and the song window, and with a non-matching filter returns total 0 and
an empty list. -/
theorem getAllSongs_count_and_window_witness :
    getAllSongs sampleToday [museSong] "mus" "" "" ((1 : Nat) : Int) ((2 : Nat) : Int) =
      .ok ⟨([museSong].filter (matchesFilters "mus" "" "")).length,
        ((1 : Nat) : Int), ((2 : Nat) : Int),
        (([museSong].filter (matchesFilters "mus" "" "")).drop ((1 - 1) * 2)).take 2⟩
    ∧ getAllSongs sampleToday [museSong] "queen" "" "" ((1 : Nat) : Int) ((2 : Nat) : Int) =
        .ok ⟨0, ((1 : Nat) : Int), ((2 : Nat) : Int), []⟩ :=
  ⟨(getAllSongs_count_and_window sampleToday [museSong] "mus" "" 1 2
      (by decide) (by decide) (by decide)).1,
    (getAllSongs_count_and_window sampleToday [museSong] "queen" "" 1 2
      (by decide) (by decide) (by decide)).2 (by decide)⟩

end MusicLib
